import Mathlib

/-!
Verification of the ERP-Modern desktop point-of-sale application.

This file gives a shallow embedding, in Lean 4, of the behavioural parts of
the repository that the specification talks about:

* the persistence gateway (DBManager in database.py): the swallowing
  fetch/execute wrappers, the Configuracion key-value accessors get_config
  and set_config, the inventory movement operation
  registrar_movimiento_inventario, and the Descuentos block of
  insert_initial_data;
* the notification manager (NotificationManager in frames/notificaciones.py):
  the bounded history, the delivery queue, the visible-widget list and the
  timer driven admission control, modelled as an explicit state machine;
* the clients record manager (ClientsFrame in frames/clients.py): the delete
  flow with its sales dependency check, and the form validation with its two
  regular expressions.

Tables are lists of rows in insertion order; SQL statements touching them are
translated clause by clause.  Driver failures (sqlite3.Error) are modelled by
an explicit outcome type, and Python exceptions that can escape a method by
an Except result.  Timer callbacks (QTimer.singleShot) are modelled as
pending-event counters consumed by an explicit event step function, which is
adequate because the whole application runs on the single UI thread.
-/

namespace ERP

/-! ## Persistence gateway: raw driver and the swallowing wrappers -/

/-- Outcome of a raw driver call (sqlite3 cursor execution): either the
result, or a raised sqlite3.Error carrying a message. -/
inductive SqlOutcome (α : Type) where
  | ok (val : α)
  | sqlError (msg : String)
  deriving Repr, DecidableEq

/-- DBManager.fetch: runs a SELECT through the driver; on sqlite3.Error it
prints a diagnostic and returns the empty row list instead of raising. -/
def fetch {α : Type} (driver : SqlOutcome (List α)) : List α :=
  match driver with
  | .ok rows => rows
  | .sqlError _ => []

/-- DBManager.execute: runs a write statement and commits, returning the
cursor lastrowid; on sqlite3.Error it prints a diagnostic and returns
None instead of raising. -/
def execute (driver : SqlOutcome Nat) : Option Nat :=
  match driver with
  | .ok rowid => some rowid
  | .sqlError _ => none

/-! ## Configuracion table and the settings accessors -/

/-- A row of the Configuracion table: clave TEXT PRIMARY KEY, valor TEXT,
descripcion TEXT, categoria TEXT, fecha_actualizacion DATETIME. -/
structure ConfigRow where
  clave : String
  valor : Option String
  descripcion : Option String
  categoria : Option String
  fecha_actualizacion : Option String
  deriving Repr, DecidableEq

/-- Result rows of SELECT valor FROM Configuracion WHERE clave = ?, in
table order. -/
def configSelectValor (t : List ConfigRow) (clave : String) : List (Option String) :=
  (t.filter (fun r => decide (r.clave = clave))).map (fun r => r.valor)

/-- DBManager.get_config: first valor returned by the SELECT if any row
matched, otherwise the supplied default. -/
def get_config (t : List ConfigRow) (clave : String) (dflt : Option String) : Option String :=
  match configSelectValor t clave with
  | [] => dflt
  | v :: _ => v

/-- DBManager.set_config: INSERT OR REPLACE INTO Configuracion supplying only
clave, valor and fecha_actualizacion.  Under SQLite, OR REPLACE on the
primary key clave deletes any existing row with that key and inserts the
fresh row, whose unsupplied columns descripcion and categoria are NULL. -/
def set_config (t : List ConfigRow) (clave valor : String) (now : String) : List ConfigRow :=
  (t.filter (fun r => decide (r.clave ≠ clave))) ++ [⟨clave, some valor, none, none, some now⟩]

/-! ## Productos, MovimientosInventario and the inventory movement -/

/-- A row of the Productos table, restricted to the columns read or written
by the embedded operations: id INTEGER PRIMARY KEY and stock INTEGER. -/
structure ProductoRow where
  id : Nat
  stock : Int
  deriving Repr, DecidableEq

/-- A row of the MovimientosInventario audit table, restricted to the columns
supplied by registrar_movimiento_inventario. -/
structure MovimientoRow where
  producto_id : Nat
  tipo_movimiento : String
  cantidad : Int
  stock_anterior : Int
  stock_nuevo : Int
  motivo : Option String
  referencia : Option String
  usuario_id : Option Nat
  deriving Repr, DecidableEq

/-- The slice of database state touched by the inventory operation. -/
structure InvDB where
  productos : List ProductoRow
  movimientos : List MovimientoRow
  deriving Repr, DecidableEq

/-- Result rows of SELECT stock FROM Productos WHERE id = ?. -/
def selectStock (db : InvDB) (producto_id : Nat) : List Int :=
  (db.productos.filter (fun p => decide (p.id = producto_id))).map (fun p => p.stock)

/-- Effect of UPDATE Productos SET stock = ? WHERE id = ? on the product
rows. -/
def updateStock (l : List ProductoRow) (producto_id : Nat) (n : Int) : List ProductoRow :=
  l.map (fun p => if p.id = producto_id then { p with stock := n } else p)

/-- A Python exception escaping a DBManager method. -/
inductive PyError where
  | indexError
  deriving Repr, DecidableEq

/-- Which of the three driver calls issued by
registrar_movimiento_inventario raise sqlite3.Error. -/
structure DriverFaults where
  fetchStockFails : Bool
  updateFails : Bool
  insertFails : Bool
  deriving Repr, DecidableEq

/-- An entirely healthy driver. -/
def healthyDriver : DriverFaults := ⟨false, false, false⟩

/-- The new-stock computation of registrar_movimiento_inventario: entrada
adds cantidad to the current stock, salida subtracts it, and any other tipo
(the ajuste case) sets the stock directly to cantidad. -/
def movimientoNuevoStock (tipo : String) (stock_actual cantidad : Int) : Int :=
  if tipo = "entrada" then stock_actual + cantidad
  else if tipo = "salida" then stock_actual - cantidad
  else cantidad

/-- DBManager.registrar_movimiento_inventario.  The stock read goes through
fetch, so a driver error is swallowed into an empty row list; the method then
indexes row zero column zero of that list with no try/except of its own, so
an empty result (failed read, or no product with that id) raises IndexError
out of the method.  tipo entrada adds cantidad to the stock, salida
subtracts it, and any other tipo (ajuste) sets the stock to cantidad.  The
UPDATE and the audit INSERT go through execute, whose driver errors are
swallowed, silently losing that write.  Returns the new stock value. -/
def registrar_movimiento_inventario (db : InvDB) (flt : DriverFaults)
    (producto_id : Nat) (tipo : String) (cantidad : Int)
    (motivo : Option String) (referencia : Option String) (usuario_id : Option Nat) :
    Except PyError (InvDB × Int) :=
  let rows := fetch (if flt.fetchStockFails then .sqlError "err" else .ok (selectStock db producto_id))
  match rows with
  | [] => .error .indexError
  | stock_actual :: _ =>
    let nuevo_stock : Int := movimientoNuevoStock tipo stock_actual cantidad
    let updated := updateStock db.productos producto_id nuevo_stock
    let db1 :=
      if flt.updateFails then db
      else { db with productos := updated }
    let db2 :=
      if flt.insertFails then db1
      else { db1 with movimientos := db1.movimientos ++
              [⟨producto_id, tipo, cantidad, stock_actual, nuevo_stock, motivo, referencia, usuario_id⟩] }
    .ok (db2, nuevo_stock)

/-! ## Descuentos and the seeding block of insert_initial_data -/

/-- A row of the Descuentos table, restricted to the columns supplied by the
seeding block.  REAL columns carry exact rationals here; the seed only
stores literals, it never computes with them. -/
structure DescuentoRow where
  nombre : String
  tipo : Option String
  porcentaje : ℚ
  monto_minimo : ℚ
  fecha_inicio : Option String
  fecha_fin : Option String
  activo : Nat
  deriving Repr, DecidableEq

/-- The three predefined discounts inserted by insert_initial_data. -/
def descuentos_predefinidos : List DescuentoRow :=
  [ ⟨"Docena 10%", some "Docena", 1/10, 0, none, none, 1⟩,
    ⟨"Mayorista 15%", some "Mayorista", 3/20, 1000, none, none, 1⟩,
    ⟨"Cliente Frecuente 5%", some "Fidelidad", 1/20, 0, none, none, 1⟩ ]

/-- The Descuentos block of DBManager.insert_initial_data: when SELECT *
FROM Descuentos returns no rows, the three predefined discounts are inserted
in order; otherwise the block inserts nothing.  Every seeding block of
insert_initial_data conditions only on emptiness of its own table. -/
def seed_descuentos (t : List DescuentoRow) : List DescuentoRow :=
  if t.isEmpty then t ++ descuentos_predefinidos else t

/-! ## Notification manager state machine -/

/-- The notification payload dict assembled by show_notification (title,
message, type, icon, creation instant, read flag).  The manager moves this
payload between history, queue and visible widgets without inspecting it;
the callback fields are omitted as the manager never reads them either. -/
structure NotifData where
  title : String
  message : String
  type_ : String
  icon : String
  timestamp : Nat
  read : Bool
  deriving Repr, DecidableEq

/-- NotificationManager.max_notifications, set to 5 in the constructor and
never reassigned. -/
def max_notifications : Nat := 5

/-- NotificationManager.notification_duration in milliseconds. -/
def notification_duration : Nat := 5000

/-- duration = duration or self.notification_duration: None and 0 are both
falsy in Python, so either yields the default duration. -/
def resolveDuration (duration : Option Nat) : Nat :=
  match duration with
  | none => notification_duration
  | some d => if d = 0 then notification_duration else d

/-- The history bookkeeping inside show_notification: insert the payload at
index 0; if the length now exceeds 200, pop() removes the last element. -/
def historyAfterShow (history : List NotifData) (data : NotifData) : List NotifData :=
  if 200 < (data :: history).length then (data :: history).dropLast else data :: history

/-- The mutable state of NotificationManager, plus counters for the pending
QTimer.singleShot callbacks it schedules: pendingRetry counts scheduled
500 ms show_next_notification retries, pendingAnim counts scheduled 150 ms
animation-finished callbacks. -/
structure NotifState where
  notification_widgets : List NotifData
  notification_history : List NotifData
  notification_queue : List (NotifData × Nat)
  is_animating : Bool
  pendingRetry : Nat
  pendingAnim : Nat
  deriving Repr, DecidableEq

/-- The manager state right after the constructor runs. -/
def initialNotifState : NotifState :=
  { notification_widgets := []
    notification_history := []
    notification_queue := []
    is_animating := false
    pendingRetry := 0
    pendingAnim := 0 }

/-- NotificationManager.show_next_notification: with an empty queue it
clears is_animating and returns; at or above the visible cap it schedules a
500 ms retry of itself and returns, leaving every field else untouched;
otherwise it sets is_animating, pops the queue front, appends the popped
payload to the visible widgets, repositions them, and schedules the 150 ms
callback that clears is_animating and calls it again. -/
def show_next_notification (s : NotifState) : NotifState :=
  match s.notification_queue with
  | [] => { s with is_animating := false }
  | (data, _duration) :: rest =>
    if max_notifications ≤ s.notification_widgets.length then
      { s with pendingRetry := s.pendingRetry + 1 }
    else
      { s with is_animating := true
               notification_queue := rest
               notification_widgets := s.notification_widgets ++ [data]
               pendingAnim := s.pendingAnim + 1 }

/-- The first half of show_notification: push the payload onto the bounded
history and append it, with its resolved duration, to the delivery queue. -/
def recordAndQueue (s : NotifState) (data : NotifData) (duration : Option Nat) : NotifState :=
  { s with
    notification_history := historyAfterShow s.notification_history data
    notification_queue := s.notification_queue ++ [(data, resolveDuration duration)] }

/-- NotificationManager.show_notification: resolve the duration, push the
payload onto the bounded history, append it to the delivery queue, and when
is_animating is clear call show_next_notification at once. -/
def show_notification (s : NotifState) (data : NotifData) (duration : Option Nat) : NotifState :=
  let s1 := recordAndQueue s data duration
  if s1.is_animating then s1 else show_next_notification s1

/-- The events that drive the manager on the single UI thread: a caller
submits a notification; a scheduled 500 ms retry fires; a scheduled 150 ms
animation-finished callback fires; a visible widget is dismissed (explicit
close, countdown expiry, or click), which runs _on_widget_closed. -/
inductive NotifEvent where
  | submit (data : NotifData) (duration : Option Nat)
  | retryFire
  | animFire
  | close (data : NotifData)
  deriving Repr, DecidableEq

/-- Whether the event is a widget dismissal. -/
def NotifEvent.isClose : NotifEvent → Bool
  | .close _ => true
  | _ => false

/-- One event step.  Timer events are enabled only while a matching callback
is pending; _on_widget_closed removes the widget from the visible list (the
first matching entry, as list.remove does) and repositions the rest, without
touching the queue or is_animating. -/
def applyEvent (s : NotifState) (e : NotifEvent) : NotifState :=
  match e with
  | .submit data duration => show_notification s data duration
  | .retryFire =>
    if s.pendingRetry = 0 then s
    else show_next_notification { s with pendingRetry := s.pendingRetry - 1 }
  | .animFire =>
    if s.pendingAnim = 0 then s
    else show_next_notification { s with pendingAnim := s.pendingAnim - 1, is_animating := false }
  | .close data =>
    if data ∈ s.notification_widgets
    then { s with notification_widgets := s.notification_widgets.erase data }
    else s

/-- Run a sequence of UI-thread events from the constructor state. -/
def runEvents (events : List NotifEvent) : NotifState :=
  events.foldl applyEvent initialNotifState

/-! ## Clients record manager: delete flow and form validation -/

/-- A row of the Clientes table, restricted to the columns the delete flow
reads or writes. -/
structure ClienteRow where
  id : Nat
  nombre : String
  apellido : String
  dni : Option String
  activo : Nat
  deriving Repr, DecidableEq

/-- A row of the Ventas table, restricted to its key and client reference. -/
structure VentaRow where
  id : String
  id_cliente : Option Nat
  deriving Repr, DecidableEq

/-- A row of the DetalleVenta table, restricted to its sale reference. -/
structure DetalleVentaRow where
  venta_id : String
  producto_id : Nat
  deriving Repr, DecidableEq

/-- The slice of database state touched by the client delete flow. -/
structure ClientesDB where
  clientes : List ClienteRow
  ventas : List VentaRow
  detalle_venta : List DetalleVentaRow
  deriving Repr, DecidableEq

/-- SELECT COUNT(*) FROM Ventas WHERE id_cliente = ?. -/
def ventasCount (db : ClientesDB) (cid : Nat) : Nat :=
  (db.ventas.filter (fun v => decide (v.id_cliente = some cid))).length

/-- Effect of UPDATE Clientes SET activo = 0 WHERE id = ? on the client
rows. -/
def deactivateClientes (l : List ClienteRow) (cid : Nat) : List ClienteRow :=
  l.map (fun c => if c.id = cid then { c with activo := 0 } else c)

/-- Outcome of ClientsFrame.delete_client as reported to the user. -/
inductive DeleteOutcome where
  | noSelection
  | deactivated
  | cascadeDeleted
  | deleted
  | cancelled
  deriving Repr, DecidableEq

/-- ClientsFrame.delete_client.  answer1 is the user reply to the first
dialog shown on the taken branch (deactivate-instead when the client has
sales, plain delete confirmation when not); answer2 is the reply to the
second dialog (cascade confirmation), asked only when the client has sales
and answer1 was No.  With sales present: Yes to the first dialog runs
UPDATE Clientes SET activo = 0 WHERE id = ?; No then Yes deletes the
DetalleVenta rows of the client sales, the Ventas rows, and the Clientes
row, in that order.  With no sales: Yes runs DELETE FROM Clientes WHERE
id = ?. -/
def delete_client (db : ClientesDB) (current_client_id : Option Nat)
    (answer1 answer2 : Bool) : ClientesDB × DeleteOutcome :=
  match current_client_id with
  | none => (db, .noSelection)
  | some cid =>
    let tiene_ventas := 0 < ventasCount db cid
    if tiene_ventas then
      if answer1 then
        ({ db with clientes := deactivateClientes db.clientes cid }, .deactivated)
      else if answer2 then
        let ventaIds := (db.ventas.filter (fun v => decide (v.id_cliente = some cid))).map (fun v => v.id)
        ({ db with
            detalle_venta := db.detalle_venta.filter (fun d => decide (d.venta_id ∉ ventaIds))
            ventas := db.ventas.filter (fun v => decide (v.id_cliente ≠ some cid))
            clientes := db.clientes.filter (fun c => decide (c.id ≠ cid)) },
         .cascadeDeleted)
      else (db, .cancelled)
    else
      if answer1 then
        ({ db with clientes := db.clientes.filter (fun c => decide (c.id ≠ cid)) }, .deleted)
      else (db, .cancelled)

/-- The four text inputs read by ClientsFrame.validate_form. -/
structure ClientForm where
  nombre : String
  apellido : String
  email : String
  dni : String
  deriving Repr, DecidableEq

/-- The validation error surfaced by the first failing field. -/
inductive FieldError where
  | nombreObligatorio
  | apellidoObligatorio
  | emailInvalido
  | dniInvalido
  deriving Repr, DecidableEq

/-- Full-anchored match of the email regular expression used by
validate_form: the string decomposes as A, an at sign, B, a dot, C, with A,
B and C nonempty and free of at signs.  The two index searches range over
the position i of the at sign and the position j of the matched dot; the
three contains checks exclude at signs from A, B and C, so a matching
string holds exactly one at sign. -/
def emailRegexMatch (s : String) : Bool :=
  let cs := s.toList
  (List.range cs.length).any (fun i =>
    (List.range cs.length).any (fun j =>
      decide (0 < i) && decide (i + 1 < j) && decide (j + 1 < cs.length) &&
      (cs.getD i ' ' == '@') && (cs.getD j ' ' == '.') &&
      !((cs.take i).contains '@') &&
      !(((cs.drop (i + 1)).take (j - i - 1)).contains '@') &&
      !((cs.drop (j + 1)).contains '@')))

/-- Full-anchored match of the national-id regular expression used by
validate_form: exactly 13 characters, each a decimal digit. -/
def dniRegexMatch (s : String) : Bool :=
  s.length == 13 && s.toList.all (fun c => decide ('0' ≤ c) && decide (c ≤ '9'))

/-- The character-list form of Python str.strip with no argument: drop
leading and trailing whitespace. -/
def stripChars (cs : List Char) : List Char :=
  ((cs.dropWhile Char.isWhitespace).reverse.dropWhile Char.isWhitespace).reverse

/-- Python str.strip on a string, as applied to every form input. -/
def pyStrip (s : String) : String :=
  String.mk (stripChars s.toList)

/-- ClientsFrame.validate_form: strip the four inputs; require nombre, then
apellido; when a nonempty email fails its regular expression report the
email; when a nonempty dni fails its regular expression report the dni;
otherwise accept.  The method returns at the first failing field. -/
def validate_form (f : ClientForm) : Option FieldError :=
  let nombre := pyStrip f.nombre
  let apellido := pyStrip f.apellido
  let email := pyStrip f.email
  let dni := pyStrip f.dni
  if nombre = "" then some .nombreObligatorio
  else if apellido = "" then some .apellidoObligatorio
  else if email ≠ "" ∧ emailRegexMatch email = false then some .emailInvalido
  else if dni ≠ "" ∧ dniRegexMatch dni = false then some .dniInvalido
  else none

/-! ## Concrete sample data used by witnesses and counterexamples -/

/-- A one-row Configuracion table resembling the seeded moneda setting. -/
def configSample : List ConfigRow :=
  [⟨"moneda", some "HNL", some "Moneda principal del sistema", some "regional", some "2024-01-01"⟩]

/-- A one-product inventory slice resembling the seeded monitor row. -/
def invSample : InvDB := ⟨[⟨1, 15⟩], []⟩

/-- A sample notification payload. -/
def sampleNotif : NotifData := ⟨"Stock Critico", "Producto bajo minimo", "warning", "bell", 0, false⟩

/-- Another sample notification payload. -/
def sampleNotif2 : NotifData := ⟨"Venta Completada", "Total 320", "success", "cart", 1, false⟩

/-- A two-client database slice: client 1 has no sales, client 2 has one. -/
def clientsSample : ClientesDB :=
  ⟨[⟨1, "Juan Carlos", "Perez Gonzalez", some "0801199901234", 1⟩,
    ⟨2, "Maria Elena", "Rodriguez Lopez", some "0801200005678", 1⟩],
   [⟨"V-001", some 2⟩],
   [⟨"V-001", 1⟩]⟩

end ERP

namespace ERP

/-! ## Helper lemmas -/

/-- Rows surviving a filter that demands clave different from k never match a
filter that demands clave equal to k. -/
theorem filter_eq_of_filter_ne (t : List ConfigRow) (k : String) :
    (t.filter (fun r => decide (r.clave ≠ k))).filter (fun r => decide (r.clave = k)) = [] := by
  induction t with
  | nil => rfl
  | cons a t ih =>
    by_cases h : a.clave = k
    · simp [List.filter_cons, h, ih]
    · simp [List.filter_cons, h, ih]

/-! ## C5: settings upsert round-trip -/

/-- C5: for every configuration table, key and value, set_config followed by
get_config on that key returns the value just written, whether or not the
key already had a row: the write is an idempotent upsert. -/
theorem C5_set_then_get (t : List ConfigRow) (k v now : String) (dflt : Option String) :
    get_config (set_config t k v now) k dflt = some v := by
  unfold get_config set_config configSelectValor
  rw [List.filter_append, filter_eq_of_filter_ne]
  simp

/-! ## C10: absent key yields the default -/

/-- C10: for every key absent from the Configuracion table and every default,
get_config returns the default. -/
theorem C10_get_config_default (t : List ConfigRow) (k : String) (dflt : Option String)
    (habs : ∀ r ∈ t, r.clave ≠ k) :
    get_config t k dflt = dflt := by
  unfold get_config configSelectValor
  have hnil : t.filter (fun r => decide (r.clave = k)) = [] := by
    rw [List.filter_eq_nil_iff]
    intro r hr
    simp [habs r hr]
  rw [hnil]
  rfl

/-- C10 witness: reading a key that the sample table does not hold returns
the supplied fallback. -/
theorem C10_witness : get_config configSample "clave_inexistente" (some "fallback") = some "fallback" :=
  C10_get_config_default configSample "clave_inexistente" (some "fallback") (by decide)

/-! ## C9: set_config replaces the whole row -/

/-- C9: when an existing setting row carries non-null descripcion and
categoria, a set_config on its key leaves the table with a single row for
that key holding only the new value and timestamp, descripcion and categoria
now NULL; the original row is gone.  INSERT OR REPLACE does not preserve the
unsupplied columns. -/
theorem C9_set_config_row_replacement (t : List ConfigRow) (k v now : String) (r0 : ConfigRow)
    (_hmem : r0 ∈ t) (hk : r0.clave = k)
    (hd : r0.descripcion.isSome) (_hc : r0.categoria.isSome) :
    (set_config t k v now).filter (fun r => decide (r.clave = k)) =
      [⟨k, some v, none, none, some now⟩] ∧
    r0 ∉ set_config t k v now := by
  constructor
  · unfold set_config
    rw [List.filter_append, filter_eq_of_filter_ne]
    simp
  · unfold set_config
    intro hmem2
    rcases List.mem_append.mp hmem2 with h1 | h2
    · have := List.of_mem_filter h1
      simp [hk] at this
    · rw [List.mem_singleton] at h2
      rw [h2] at hd
      simp at hd

/-- C9 witness: overwriting the sample moneda row drops its descripcion and
categoria and removes the original row. -/
theorem C9_witness :
    (set_config configSample "moneda" "USD" "2024-06-01").filter (fun r => decide (r.clave = "moneda")) =
      [⟨"moneda", some "USD", none, none, some "2024-06-01"⟩] ∧
    (⟨"moneda", some "HNL", some "Moneda principal del sistema", some "regional", some "2024-01-01"⟩ : ConfigRow) ∉
      set_config configSample "moneda" "USD" "2024-06-01" :=
  C9_set_config_row_replacement configSample "moneda" "USD" "2024-06-01"
    ⟨"moneda", some "HNL", some "Moneda principal del sistema", some "regional", some "2024-01-01"⟩
    (by decide) (by decide) (by decide) (by decide)

/-! ## C8: one-time bootstrap of the Descuentos table -/

/-- C8: seeding an empty Descuentos table leaves exactly the three
predefined discount rows; seeding any non-empty table inserts nothing, so a
second run after the first changes nothing. -/
theorem C8_seed_descuentos_bootstrap :
    seed_descuentos [] = descuentos_predefinidos ∧
    descuentos_predefinidos.length = 3 ∧
    (∀ t : List DescuentoRow, t ≠ [] → seed_descuentos t = t) ∧
    seed_descuentos (seed_descuentos []) = seed_descuentos [] := by
  have h1 : seed_descuentos [] = descuentos_predefinidos := by simp [seed_descuentos]
  have h3 : ∀ t : List DescuentoRow, t ≠ [] → seed_descuentos t = t := by
    intro t ht
    cases t with
    | nil => exact absurd rfl ht
    | cons a t => simp [seed_descuentos]
  refine ⟨h1, by simp [descuentos_predefinidos], h3, ?_⟩
  rw [h1]
  exact h3 _ (by simp [descuentos_predefinidos])

/-- C8 witness: seeding the already-seeded table of three discounts is the
identity. -/
theorem C8_witness : seed_descuentos descuentos_predefinidos = descuentos_predefinidos :=
  C8_seed_descuentos_bootstrap.2.2.1 descuentos_predefinidos (by simp [descuentos_predefinidos])

/-! ## C1: inventory movement semantics -/

/-- Filtering the stock-updated product list on the updated id equals
updating the filtered rows: the update preserves every id. -/
theorem filter_updateStock (l : List ProductoRow) (pid : Nat) (n : Int) :
    (updateStock l pid n).filter (fun p => decide (p.id = pid)) =
      (l.filter (fun p => decide (p.id = pid))).map (fun p => { p with stock := n }) := by
  induction l with
  | nil => rfl
  | cons a l ih =>
    by_cases h : a.id = pid
    · simp [updateStock, List.filter_cons, h] at ih ⊢
      exact ih
    · simp [updateStock, List.filter_cons, h] at ih ⊢
      exact ih

/-- After the UPDATE of registrar_movimiento_inventario, the stock SELECT on
the same product id returns exactly the new value, provided it returned
exactly one row before. -/
theorem selectStock_after_update (db : InvDB) (pid : Nat) (S n : Int)
    (h : selectStock db pid = [S]) :
    selectStock { db with productos := updateStock db.productos pid n } pid = [n] := by
  unfold selectStock at h ⊢
  rw [filter_updateStock, List.map_map]
  have hlen : (db.productos.filter (fun p => decide (p.id = pid))).length = 1 := by
    simpa using congrArg List.length h
  obtain ⟨p, hp⟩ := List.length_eq_one.mp hlen
  rw [hp]
  rfl

/-- C1: on a healthy driver, for a product whose stock SELECT returns the
single row S, the movement operation with kind entrada sets the stock to
S plus cantidad, with kind salida to S minus cantidad, and with any other
kind directly to cantidad; it appends exactly one audit row carrying
stock_anterior S and stock_nuevo equal to the new stock, and returns the
new stock. -/
theorem C1_inventory_movement (db : InvDB) (pid : Nat) (S cantidad : Int) (tipo : String)
    (motivo referencia : Option String) (usuario_id : Option Nat)
    (h : selectStock db pid = [S]) :
    ∃ db2 : InvDB,
      registrar_movimiento_inventario db healthyDriver pid tipo cantidad motivo referencia usuario_id =
        .ok (db2, movimientoNuevoStock tipo S cantidad) ∧
      selectStock db2 pid = [movimientoNuevoStock tipo S cantidad] ∧
      db2.movimientos = db.movimientos ++
        [⟨pid, tipo, cantidad, S, movimientoNuevoStock tipo S cantidad, motivo, referencia, usuario_id⟩] ∧
      (tipo = "entrada" → movimientoNuevoStock tipo S cantidad = S + cantidad) ∧
      (tipo = "salida" → movimientoNuevoStock tipo S cantidad = S - cantidad) ∧
      (tipo ≠ "entrada" → tipo ≠ "salida" → movimientoNuevoStock tipo S cantidad = cantidad) := by
  unfold registrar_movimiento_inventario healthyDriver fetch
  simp only [Bool.false_eq_true, if_false]
  rw [h]
  refine ⟨_, rfl, ?_, rfl, ?_, ?_, ?_⟩
  · exact selectStock_after_update db pid S _ h
  · intro ht; simp [movimientoNuevoStock, ht]
  · intro ht
    by_cases he : tipo = "entrada"
    · rw [he] at ht; simp at ht
    · simp [movimientoNuevoStock, he, ht]
  · intro he hs; simp [movimientoNuevoStock, he, hs]

/-- C1 witness: an entrada of 5 on the sample product with stock 15 yields
stock 20 and one audit row from 15 to 20. -/
theorem C1_witness :
    selectStock invSample 1 = [15] ∧
    ∃ db2 : InvDB,
      registrar_movimiento_inventario invSample healthyDriver 1 "entrada" 5 none none none =
        .ok (db2, movimientoNuevoStock "entrada" 15 5) ∧
      selectStock db2 1 = [movimientoNuevoStock "entrada" 15 5] ∧
      db2.movimientos = invSample.movimientos ++
        [⟨1, "entrada", 5, 15, movimientoNuevoStock "entrada" 15 5, none, none, none⟩] ∧
      ("entrada" = "entrada" → movimientoNuevoStock "entrada" 15 5 = 15 + 5) ∧
      ("entrada" = "salida" → movimientoNuevoStock "entrada" 15 5 = 15 - 5) ∧
      ("entrada" ≠ "entrada" → "entrada" ≠ "salida" → movimientoNuevoStock "entrada" 15 5 = 5) :=
  ⟨by decide, C1_inventory_movement invSample 1 15 5 "entrada" none none none (by decide)⟩

/-! ## C4: error swallowing at the gateway boundary -/

/-- C4 counterexample to the claim as stated: a data-access failure does
escape the gateway boundary.  On the sample database, a driver error in the
stock read of registrar_movimiento_inventario is swallowed by fetch into an
empty row list, and the row indexing then raises an IndexError out of the
method. -/
theorem C4_counterexample :
    registrar_movimiento_inventario invSample ⟨true, false, false⟩ 1 "entrada" 5 none none none =
      .error .indexError := by
  rfl

/-- C4 amended: fetch swallows every driver error into an empty row list and
execute swallows every driver error into a null identifier, but data-access
failures can escape the gateway through registrar_movimiento_inventario:
whenever its stock read fails, the swallowed empty result makes the row
indexing raise an uncaught IndexError. -/
theorem C4_error_swallowing :
    (∀ (α : Type) (msg : String), fetch (SqlOutcome.sqlError msg : SqlOutcome (List α)) = []) ∧
    (∀ msg : String, execute (SqlOutcome.sqlError msg) = none) ∧
    (∀ (db : InvDB) (flt : DriverFaults) (pid : Nat) (tipo : String) (cantidad : Int)
        (motivo referencia : Option String) (usuario_id : Option Nat),
      flt.fetchStockFails = true →
      registrar_movimiento_inventario db flt pid tipo cantidad motivo referencia usuario_id =
        .error .indexError) := by
  refine ⟨fun α msg => rfl, fun msg => rfl, ?_⟩
  intro db flt pid tipo cantidad motivo referencia usuario_id hfail
  unfold registrar_movimiento_inventario
  rw [hfail]
  rfl

/-- C4 witness: on the sample database a failing stock read escapes as an
IndexError, while the swallowing wrappers themselves return empty and null. -/
theorem C4_witness :
    fetch (SqlOutcome.sqlError "disk error" : SqlOutcome (List Int)) = [] ∧
    execute (SqlOutcome.sqlError "disk error") = none ∧
    registrar_movimiento_inventario invSample ⟨true, false, false⟩ 2 "salida" 3 none none none =
      .error .indexError :=
  ⟨C4_error_swallowing.1 Int "disk error", C4_error_swallowing.2.1 "disk error",
   C4_error_swallowing.2.2 invSample ⟨true, false, false⟩ 2 "salida" 3 none none none rfl⟩

/-! ## C2: bounded most-recent-first history -/

/-- One history push preserves the 200-entry bound. -/
theorem historyAfterShow_length_le (h : List NotifData) (d : NotifData)
    (hh : h.length ≤ 200) : (historyAfterShow h d).length ≤ 200 := by
  unfold historyAfterShow
  split
  · simp
    omega
  · simp at *
    omega

/-- Folding history pushes over any submission sequence preserves the
200-entry bound. -/
theorem foldl_historyAfterShow_length_le (subs : List NotifData) :
    ∀ h : List NotifData, h.length ≤ 200 →
      (List.foldl historyAfterShow h subs).length ≤ 200 := by
  induction subs with
  | nil => intro h hh; simpa using hh
  | cons d subs ih =>
    intro h hh
    exact ih (historyAfterShow h d) (historyAfterShow_length_le h d hh)

/-- C2: starting from the empty history, any sequence of submissions leaves
at most 200 entries; every push places the new payload at the front; and a
push onto a full history of 200 entries evicts exactly the last (oldest)
element. -/
theorem C2_history_bound (subs : List NotifData) :
    (List.foldl historyAfterShow [] subs).length ≤ 200 ∧
    (∀ (h : List NotifData) (d : NotifData), ∃ t, historyAfterShow h d = d :: t) ∧
    (∀ (h : List NotifData) (d : NotifData), h.length = 200 →
      historyAfterShow h d = d :: h.dropLast) := by
  refine ⟨foldl_historyAfterShow_length_le subs [] (by simp), ?_, ?_⟩
  · intro h d
    unfold historyAfterShow
    split
    · cases h with
      | nil => simp_all
      | cons a t => exact ⟨(a :: t).dropLast, by simp⟩
    · exact ⟨h, rfl⟩
  · intro h d hlen
    unfold historyAfterShow
    rw [if_pos (by simp [hlen])]
    cases h with
    | nil => simp at hlen
    | cons a t => simp

/-- C2 witness: one submission keeps the bound, and a push onto a full
history of 200 copies of a sample payload drops the last entry. -/
theorem C2_witness :
    (List.foldl historyAfterShow [] [sampleNotif]).length ≤ 200 ∧
    historyAfterShow (List.replicate 200 sampleNotif) sampleNotif2 =
      sampleNotif2 :: (List.replicate 200 sampleNotif).dropLast :=
  ⟨(C2_history_bound [sampleNotif]).1,
   (C2_history_bound [sampleNotif]).2.2 (List.replicate 200 sampleNotif) sampleNotif2
     (List.length_replicate 200 sampleNotif)⟩

/-! ## C3: admission control of visible notifications -/

/-- show_next_notification on an empty queue only clears is_animating. -/
theorem show_next_of_queue_nil (s : NotifState) (hq : s.notification_queue = []) :
    show_next_notification s = { s with is_animating := false } := by
  unfold show_next_notification
  rw [hq]

/-- show_next_notification at or above the visible cap only schedules one
more 500 ms retry. -/
theorem show_next_of_cap (s : NotifState) (hq : s.notification_queue ≠ [])
    (hcap : max_notifications ≤ s.notification_widgets.length) :
    show_next_notification s = { s with pendingRetry := s.pendingRetry + 1 } := by
  rcases hqe : s.notification_queue with _ | ⟨⟨d, dur⟩, rest⟩
  · exact absurd hqe hq
  · unfold show_next_notification
    rw [hqe]
    simp [hcap]

/-- show_next_notification below the cap admits the queue front: it appends
that payload to the visible widgets, drops it from the queue, sets
is_animating and schedules the 150 ms animation callback. -/
theorem show_next_of_room (s : NotifState) (d : NotifData) (dur : Nat)
    (rest : List (NotifData × Nat)) (hq : s.notification_queue = (d, dur) :: rest)
    (hroom : s.notification_widgets.length < max_notifications) :
    show_next_notification s =
      { s with is_animating := true
               notification_queue := rest
               notification_widgets := s.notification_widgets ++ [d]
               pendingAnim := s.pendingAnim + 1 } := by
  unfold show_next_notification
  rw [hq]
  simp only []
  rw [if_neg (by omega)]

/-- At or above the cap, show_next_notification leaves the visible list
untouched. -/
theorem show_next_widgets_of_cap (s : NotifState)
    (hcap : max_notifications ≤ s.notification_widgets.length) :
    (show_next_notification s).notification_widgets = s.notification_widgets := by
  rcases hq : s.notification_queue with _ | ⟨⟨d, dur⟩, rest⟩
  · rw [show_next_of_queue_nil s hq]
  · rw [show_next_of_cap s (by rw [hq]; exact List.cons_ne_nil _ _) hcap]

/-- show_next_notification preserves the visible-cap bound. -/
theorem show_next_widgets_le (s : NotifState)
    (hs : s.notification_widgets.length ≤ max_notifications) :
    (show_next_notification s).notification_widgets.length ≤ max_notifications := by
  rcases hq : s.notification_queue with _ | ⟨⟨d, dur⟩, rest⟩
  · rw [show_next_of_queue_nil s hq]
    exact hs
  · by_cases hcap : max_notifications ≤ s.notification_widgets.length
    · rw [show_next_of_cap s (by rw [hq]; exact List.cons_ne_nil _ _) hcap]
      exact hs
    · rw [show_next_of_room s d dur rest hq (by omega)]
      simp
      omega

/-- The recording half of show_notification leaves the visible list alone. -/
@[simp] theorem recordAndQueue_widgets (s : NotifState) (data : NotifData) (duration : Option Nat) :
    (recordAndQueue s data duration).notification_widgets = s.notification_widgets := rfl

/-- The recording half of show_notification appends to the queue back. -/
@[simp] theorem recordAndQueue_queue (s : NotifState) (data : NotifData) (duration : Option Nat) :
    (recordAndQueue s data duration).notification_queue =
      s.notification_queue ++ [(data, resolveDuration duration)] := rfl

/-- The recording half of show_notification keeps is_animating. -/
@[simp] theorem recordAndQueue_is_animating (s : NotifState) (data : NotifData) (duration : Option Nat) :
    (recordAndQueue s data duration).is_animating = s.is_animating := rfl

/-- show_notification while is_animating only records into the history and
the queue. -/
theorem show_notification_of_animating (s : NotifState) (data : NotifData)
    (duration : Option Nat) (ha : s.is_animating = true) :
    show_notification s data duration = recordAndQueue s data duration := by
  unfold show_notification
  simp [ha]

/-- show_notification while is_animating is clear records into the history
and the queue and then runs show_next_notification at once. -/
theorem show_notification_of_quiet (s : NotifState) (data : NotifData)
    (duration : Option Nat) (ha : s.is_animating = false) :
    show_notification s data duration =
      show_next_notification (recordAndQueue s data duration) := by
  unfold show_notification
  simp [ha]

/-- Submitting below the cap, with no animation in progress and an empty
queue, displays the submitted payload at once at the end of the visible
list. -/
theorem show_notification_immediate (s : NotifState) (data : NotifData)
    (duration : Option Nat) (ha : s.is_animating = false)
    (hq : s.notification_queue = [])
    (hroom : s.notification_widgets.length < max_notifications) :
    (show_notification s data duration).notification_widgets =
      s.notification_widgets ++ [data] := by
  rw [show_notification_of_quiet s data duration ha]
  rw [show_next_of_room (recordAndQueue s data duration) data (resolveDuration duration) []
      (by simp [hq]) (by simpa using hroom)]
  rfl

/-- Submitting at or above the cap, with no animation in progress, leaves the
visible list untouched, appends the payload to the back of the queue and
schedules one 500 ms admission retry. -/
theorem show_notification_at_cap (s : NotifState) (data : NotifData)
    (duration : Option Nat) (ha : s.is_animating = false)
    (hcap : max_notifications ≤ s.notification_widgets.length) :
    show_notification s data duration =
      { s with notification_history := historyAfterShow s.notification_history data
               notification_queue := s.notification_queue ++ [(data, resolveDuration duration)]
               pendingRetry := s.pendingRetry + 1 } := by
  rw [show_notification_of_quiet s data duration ha]
  rw [show_next_of_cap (recordAndQueue s data duration) (by simp) (by simpa using hcap)]
  rfl

/-- No event other than a widget dismissal can change the visible list of a
manager at or above the visible cap. -/
theorem applyEvent_widgets_of_cap (s : NotifState) (e : NotifEvent)
    (hcap : max_notifications ≤ s.notification_widgets.length)
    (hnc : e.isClose = false) :
    (applyEvent s e).notification_widgets = s.notification_widgets := by
  cases e with
  | submit data duration =>
    show (show_notification s data duration).notification_widgets = s.notification_widgets
    by_cases ha : s.is_animating = true
    · rw [show_notification_of_animating s data duration ha]
      rfl
    · rw [show_notification_of_quiet s data duration (by simpa using ha)]
      exact show_next_widgets_of_cap _ (by simpa using hcap)
  | retryFire =>
    simp only [applyEvent]
    split
    · rfl
    · exact show_next_widgets_of_cap _ hcap
  | animFire =>
    simp only [applyEvent]
    split
    · rfl
    · exact show_next_widgets_of_cap _ hcap
  | close data =>
    simp [NotifEvent.isClose] at hnc

/-- Without a dismissal, the visible list of a manager at or above the cap
stays literally unchanged across any run of UI events: a queued payload can
become visible only after an existing visible notification is dismissed. -/
theorem foldl_widgets_of_cap (events : List NotifEvent) :
    ∀ s : NotifState, max_notifications ≤ s.notification_widgets.length →
      (∀ e ∈ events, e.isClose = false) →
      (List.foldl applyEvent s events).notification_widgets = s.notification_widgets := by
  induction events with
  | nil =>
    intro s _ _
    rfl
  | cons e events ih =>
    intro s hcap hnc
    have he := hnc e (List.mem_cons_self e events)
    have h1 := applyEvent_widgets_of_cap s e hcap he
    rw [List.foldl_cons,
        ih (applyEvent s e) (by rw [h1]; exact hcap)
          (fun x hx => hnc x (List.mem_cons_of_mem e hx))]
    exact h1

/-- Every single event preserves the visible-cap bound. -/
theorem applyEvent_widgets_le (s : NotifState) (e : NotifEvent)
    (hs : s.notification_widgets.length ≤ max_notifications) :
    (applyEvent s e).notification_widgets.length ≤ max_notifications := by
  cases e with
  | submit data duration =>
    show (show_notification s data duration).notification_widgets.length ≤ max_notifications
    by_cases ha : s.is_animating = true
    · rw [show_notification_of_animating s data duration ha]
      exact hs
    · rw [show_notification_of_quiet s data duration (by simpa using ha)]
      exact show_next_widgets_le _ (by simpa using hs)
  | retryFire =>
    simp only [applyEvent]
    split
    · exact hs
    · exact show_next_widgets_le _ hs
  | animFire =>
    simp only [applyEvent]
    split
    · exact hs
    · exact show_next_widgets_le _ hs
  | close data =>
    simp only [applyEvent]
    split
    · exact le_trans (List.Sublist.length_le (List.erase_sublist _ _)) hs
    · exact hs

/-- Folding events preserves the visible-cap bound. -/
theorem foldl_widgets_le (events : List NotifEvent) :
    ∀ s : NotifState, s.notification_widgets.length ≤ max_notifications →
      (List.foldl applyEvent s events).notification_widgets.length ≤ max_notifications := by
  induction events with
  | nil =>
    intro s hs
    exact hs
  | cons e events ih =>
    intro s hs
    exact ih (applyEvent s e) (applyEvent_widgets_le s e hs)

/-- C3 counterexample to the claim as stated: submitting while fewer than
max_notifications widgets are visible need not display the new notification
immediately.  After one submission the manager has one visible widget and
is_animating still set (the 150 ms callback has not fired); a second
submission in the same event-loop turn is only queued: the visible list is
unchanged and does not hold the second payload, though 1 is below the cap
of 5. -/
theorem C3_counterexample :
    (show_notification initialNotifState sampleNotif none).notification_widgets.length <
      max_notifications ∧
    (show_notification (show_notification initialNotifState sampleNotif none)
        sampleNotif2 none).notification_widgets =
      (show_notification initialNotifState sampleNotif none).notification_widgets ∧
    sampleNotif2 ∉ (show_notification (show_notification initialNotifState sampleNotif none)
        sampleNotif2 none).notification_widgets := by
  decide

/-- C3 amended: the visible set never exceeds max_notifications along any
event run; a submission with no admission animation in progress and an empty
queue and room below the cap is displayed immediately; a submission with no
animation in progress at or above the cap is queued and schedules a 500 ms
polling retry; admission always takes the queue front (FIFO); and while at
or above the cap the visible set can change only through a dismissal, so a
queued item becomes visible only after one.  (The claim as stated omits the
is_animating proviso: during the 150 ms admission animation a below-cap
submission is queued, not displayed immediately; see the counterexample.) -/
theorem C3_queue_admission :
    (∀ events : List NotifEvent,
      (runEvents events).notification_widgets.length ≤ max_notifications) ∧
    (∀ (s : NotifState) (data : NotifData) (duration : Option Nat),
      s.is_animating = false → s.notification_queue = [] →
      s.notification_widgets.length < max_notifications →
      (show_notification s data duration).notification_widgets =
        s.notification_widgets ++ [data]) ∧
    (∀ (s : NotifState) (data : NotifData) (duration : Option Nat),
      s.is_animating = false → max_notifications ≤ s.notification_widgets.length →
      show_notification s data duration =
        { s with notification_history := historyAfterShow s.notification_history data
                 notification_queue := s.notification_queue ++ [(data, resolveDuration duration)]
                 pendingRetry := s.pendingRetry + 1 }) ∧
    (∀ (s : NotifState) (data : NotifData) (dur : Nat) (rest : List (NotifData × Nat)),
      s.notification_queue = (data, dur) :: rest →
      s.notification_widgets.length < max_notifications →
      show_next_notification s =
        { s with is_animating := true
                 notification_queue := rest
                 notification_widgets := s.notification_widgets ++ [data]
                 pendingAnim := s.pendingAnim + 1 }) ∧
    (∀ (s : NotifState) (events : List NotifEvent),
      max_notifications ≤ s.notification_widgets.length →
      (∀ e ∈ events, e.isClose = false) →
      (List.foldl applyEvent s events).notification_widgets = s.notification_widgets) :=
  ⟨fun events => foldl_widgets_le events initialNotifState (by simp [initialNotifState]),
   fun s data duration => show_notification_immediate s data duration,
   fun s data duration => show_notification_at_cap s data duration,
   fun s data dur rest => show_next_of_room s data dur rest,
   fun s events hcap hnc => foldl_widgets_of_cap events s hcap hnc⟩

/-- A manager state with the visible list full. -/
def capState : NotifState :=
  { notification_widgets := List.replicate 5 sampleNotif
    notification_history := []
    notification_queue := []
    is_animating := false
    pendingRetry := 0
    pendingAnim := 0 }

/-- A quiet manager state with one queued entry and nothing visible. -/
def queuedState : NotifState :=
  { notification_widgets := []
    notification_history := []
    notification_queue := [(sampleNotif, 5000)]
    is_animating := false
    pendingRetry := 0
    pendingAnim := 0 }

/-- C3 witness: concrete instances of every clause of the amended claim. -/
theorem C3_witness :
    (runEvents [NotifEvent.submit sampleNotif none]).notification_widgets.length ≤
      max_notifications ∧
    (show_notification initialNotifState sampleNotif none).notification_widgets =
      initialNotifState.notification_widgets ++ [sampleNotif] ∧
    show_notification capState sampleNotif2 none =
      { capState with
          notification_history := historyAfterShow capState.notification_history sampleNotif2
          notification_queue := capState.notification_queue ++ [(sampleNotif2, resolveDuration none)]
          pendingRetry := capState.pendingRetry + 1 } ∧
    show_next_notification queuedState =
      { queuedState with
          is_animating := true
          notification_queue := []
          notification_widgets := queuedState.notification_widgets ++ [sampleNotif]
          pendingAnim := queuedState.pendingAnim + 1 } ∧
    (List.foldl applyEvent capState
        [NotifEvent.submit sampleNotif2 none, NotifEvent.retryFire]).notification_widgets =
      capState.notification_widgets :=
  ⟨C3_queue_admission.1 [NotifEvent.submit sampleNotif none],
   C3_queue_admission.2.1 initialNotifState sampleNotif none rfl rfl (by decide),
   C3_queue_admission.2.2.1 capState sampleNotif2 none rfl (by decide),
   C3_queue_admission.2.2.2.1 queuedState sampleNotif 5000 [] rfl (by decide),
   C3_queue_admission.2.2.2.2 capState [NotifEvent.submit sampleNotif2 none, NotifEvent.retryFire]
     (by decide) (by decide)⟩

/-! ## C6: deleting a client with and without sales -/

/-- C6: a client with no Ventas rows is removed directly after the single
confirmation, whatever the (never asked) second answer would be, and the
sales tables are untouched; a client with at least one Ventas row gets the
deactivate-or-cascade choice, and choosing deactivation leaves every Ventas
and DetalleVenta row unchanged, keeps the Clientes row count, sets activo
to 0 on the rows with that id and leaves every other client row as it was. -/
theorem C6_delete_client_flow (db : ClientesDB) (cid : Nat) (answer2 : Bool) :
    (ventasCount db cid = 0 →
      delete_client db (some cid) true answer2 =
        ({ db with clientes := db.clientes.filter (fun c => decide (c.id ≠ cid)) },
         .deleted)) ∧
    (0 < ventasCount db cid →
      (delete_client db (some cid) true answer2).2 = .deactivated ∧
      (delete_client db (some cid) true answer2).1.ventas = db.ventas ∧
      (delete_client db (some cid) true answer2).1.detalle_venta = db.detalle_venta ∧
      (delete_client db (some cid) true answer2).1.clientes.length = db.clientes.length ∧
      (∀ c ∈ (delete_client db (some cid) true answer2).1.clientes,
        c.id = cid → c.activo = 0) ∧
      (∀ c ∈ (delete_client db (some cid) true answer2).1.clientes,
        c.id ≠ cid → c ∈ db.clientes)) := by
  constructor
  · intro h0
    simp [delete_client, h0]
  · intro h1
    have hd : delete_client db (some cid) true answer2 =
        ({ db with clientes := deactivateClientes db.clientes cid }, .deactivated) := by
      simp [delete_client, h1]
    rw [hd]
    refine ⟨rfl, rfl, rfl, by simp [deactivateClientes], ?_, ?_⟩
    · intro c hc hid
      simp only [deactivateClientes, List.mem_map] at hc
      obtain ⟨c0, _hc0, hmap⟩ := hc
      by_cases h : c0.id = cid
      · rw [if_pos h] at hmap
        rw [← hmap]
      · rw [if_neg h] at hmap
        rw [← hmap] at hid
        exact absurd hid h
    · intro c hc hid
      simp only [deactivateClientes, List.mem_map] at hc
      obtain ⟨c0, hc0, hmap⟩ := hc
      by_cases h : c0.id = cid
      · rw [if_pos h] at hmap
        rw [← hmap] at hid
        simp [h] at hid
      · rw [if_neg h] at hmap
        rw [← hmap]
        exact hc0

/-- C6 witness: in the sample database, deleting client 1 (no sales) removes
its row after the single confirmation, and deactivating client 2 (one sale)
keeps the sales and flips its activo flag. -/
theorem C6_witness :
    delete_client clientsSample (some 1) true false =
      ({ clientsSample with
          clientes := clientsSample.clientes.filter (fun c => decide (c.id ≠ 1)) },
       .deleted) ∧
    (delete_client clientsSample (some 2) true false).2 = .deactivated ∧
    (delete_client clientsSample (some 2) true false).1.ventas = clientsSample.ventas ∧
    (∀ c ∈ (delete_client clientsSample (some 2) true false).1.clientes,
      c.id = 2 → c.activo = 0) :=
  ⟨(C6_delete_client_flow clientsSample 1 false).1 (by decide),
   ((C6_delete_client_flow clientsSample 2 false).2 (by decide)).1,
   ((C6_delete_client_flow clientsSample 2 false).2 (by decide)).2.1,
   ((C6_delete_client_flow clientsSample 2 false).2 (by decide)).2.2.2.2.1⟩

/-! ## C7: client form validation -/

/-- A string with no at sign cannot match the email regular expression. -/
theorem emailRegexMatch_of_no_at (s : String) (h : ¬ ( '@' ∈ s.toList)) :
    emailRegexMatch s = false := by
  by_contra hne
  rw [Bool.not_eq_false] at hne
  unfold emailRegexMatch at hne
  rw [List.any_eq_true] at hne
  obtain ⟨i, hi, hinner⟩ := hne
  rw [List.any_eq_true] at hinner
  obtain ⟨j, _hj, hbody⟩ := hinner
  rw [List.mem_range] at hi
  simp only [Bool.and_eq_true, decide_eq_true_eq, beq_iff_eq] at hbody
  obtain ⟨⟨⟨⟨⟨⟨⟨_h1, _h2⟩, _h3⟩, hat⟩, _h5⟩, _h6⟩, _h7⟩, _h8⟩ := hbody
  apply h
  rw [← hat, List.getD_eq_getElem (l := s.toList) (d := ' ') hi]
  exact List.getElem_mem hi

/-- The national-id regular expression accepts exactly the 13-character
all-digit strings. -/
theorem dniRegexMatch_iff (s : String) :
    dniRegexMatch s = true ↔
      s.length = 13 ∧ ∀ c ∈ s.toList, ('0' ≤ c ∧ c ≤ '9') := by
  unfold dniRegexMatch
  rw [Bool.and_eq_true, List.all_eq_true, beq_iff_eq]
  constructor
  · rintro ⟨h1, h2⟩
    refine ⟨h1, fun c hc => ?_⟩
    have := h2 c hc
    rw [Bool.and_eq_true, decide_eq_true_eq, decide_eq_true_eq] at this
    exact this
  · rintro ⟨h1, h2⟩
    refine ⟨h1, fun c hc => ?_⟩
    rw [Bool.and_eq_true, decide_eq_true_eq, decide_eq_true_eq]
    exact h2 c hc

/-- C7: validate_form requires nombre and then apellido, whatever the later
fields hold; with those present it rejects a nonempty email failing its
regular expression (in particular any email with no at sign) reporting the
email field; then rejects a nonempty dni that is not exactly 13 digits,
reporting the dni field; and accepts the form when every check passes, empty
email and dni included.  Only the first failing field is ever reported. -/
theorem C7_validate_form_rules :
    (∀ f : ClientForm, pyStrip f.nombre = "" →
      validate_form f = some .nombreObligatorio) ∧
    (∀ f : ClientForm, pyStrip f.nombre ≠ "" → pyStrip f.apellido = "" →
      validate_form f = some .apellidoObligatorio) ∧
    (∀ f : ClientForm, pyStrip f.nombre ≠ "" → pyStrip f.apellido ≠ "" →
      pyStrip f.email ≠ "" → emailRegexMatch (pyStrip f.email) = false →
      validate_form f = some .emailInvalido) ∧
    (∀ s : String, ¬ ( '@' ∈ s.toList) → emailRegexMatch s = false) ∧
    (∀ f : ClientForm, pyStrip f.nombre ≠ "" → pyStrip f.apellido ≠ "" →
      (pyStrip f.email = "" ∨ emailRegexMatch (pyStrip f.email) = true) →
      pyStrip f.dni ≠ "" → dniRegexMatch (pyStrip f.dni) = false →
      validate_form f = some .dniInvalido) ∧
    (∀ s : String, dniRegexMatch s = true ↔
      s.length = 13 ∧ ∀ c ∈ s.toList, ('0' ≤ c ∧ c ≤ '9')) ∧
    (∀ f : ClientForm, pyStrip f.nombre ≠ "" → pyStrip f.apellido ≠ "" →
      (pyStrip f.email = "" ∨ emailRegexMatch (pyStrip f.email) = true) →
      (pyStrip f.dni = "" ∨ dniRegexMatch (pyStrip f.dni) = true) →
      validate_form f = none) := by
  refine ⟨?_, ?_, ?_, emailRegexMatch_of_no_at, ?_, dniRegexMatch_iff, ?_⟩
  · intro f h
    unfold validate_form
    rw [if_pos h]
  · intro f h1 h2
    unfold validate_form
    rw [if_neg h1, if_pos h2]
  · intro f h1 h2 h3 h4
    unfold validate_form
    rw [if_neg h1, if_neg h2, if_pos ⟨h3, h4⟩]
  · intro f h1 h2 h3 h4 h5
    unfold validate_form
    rw [if_neg h1, if_neg h2, if_neg ?hmail, if_pos ⟨h4, h5⟩]
    case hmail =>
      rintro ⟨hne, hm⟩
      rcases h3 with he | he
      · exact hne he
      · rw [he] at hm
        exact absurd hm (by decide)
  · intro f h1 h2 h3 h4
    unfold validate_form
    rw [if_neg h1, if_neg h2, if_neg ?hmail2, if_neg ?hdni]
    case hmail2 =>
      rintro ⟨hne, hm⟩
      rcases h3 with he | he
      · exact hne he
      · rw [he] at hm
        exact absurd hm (by decide)
    case hdni =>
      rintro ⟨hne, hm⟩
      rcases h4 with he | he
      · exact hne he
      · rw [he] at hm
        exact absurd hm (by decide)

/-- C7 witness: concrete forms exercising every clause: missing nombre,
missing apellido, an email with no at sign, a 12-digit dni, and a fully
valid form with the seeded sample data. -/
theorem C7_witness :
    validate_form ⟨"", "Perez", "", ""⟩ = some .nombreObligatorio ∧
    validate_form ⟨"Juan", " ", "", ""⟩ = some .apellidoObligatorio ∧
    validate_form ⟨"Juan", "Perez", "juan.perez.email.com", ""⟩ = some .emailInvalido ∧
    validate_form ⟨"Juan", "Perez", "juan.perez@email.com", "080119990123"⟩ = some .dniInvalido ∧
    validate_form ⟨"Juan", "Perez", "juan.perez@email.com", "0801199901234"⟩ = none ∧
    validate_form ⟨"Ana", "Gomez", "", ""⟩ = none :=
  ⟨C7_validate_form_rules.1 ⟨"", "Perez", "", ""⟩ (by decide),
   C7_validate_form_rules.2.1 ⟨"Juan", " ", "", ""⟩ (by decide) (by decide),
   C7_validate_form_rules.2.2.1 ⟨"Juan", "Perez", "juan.perez.email.com", ""⟩
     (by decide) (by decide) (by decide) (by decide),
   C7_validate_form_rules.2.2.2.2.1 ⟨"Juan", "Perez", "juan.perez@email.com", "080119990123"⟩
     (by decide) (by decide) (Or.inr (by decide)) (by decide) (by decide),
   C7_validate_form_rules.2.2.2.2.2.2 ⟨"Juan", "Perez", "juan.perez@email.com", "0801199901234"⟩
     (by decide) (by decide) (Or.inr (by decide)) (Or.inr (by decide)),
   C7_validate_form_rules.2.2.2.2.2.2 ⟨"Ana", "Gomez", "", ""⟩
     (by decide) (by decide) (Or.inl (by decide)) (Or.inl (by decide))⟩

end ERP
